import Mathlib

/-!
# VChat — shallow embedding and verification

A shallow embedding of the VChat client (`src/scripts/chat.js`,
`src/scripts/ui.js`, `src/scripts/app.js`): a Firestore-backed chat room
client with a `Chatroom` data layer, a `ChatUI` rendering layer and a
controller wiring DOM events to both.

The embedding models:
* the `Chat` record written by `Chatroom.addChat`;
* the session state of a `Chatroom` instance (`room`, `username`,
  `unsub`) together with the set of Firestore listeners it has created,
  the rendered message list and the contents of `localStorage.username`;
* the query opened by `Chatroom.getChats` and the snapshot handler that
  forwards `added` document changes to the render callback;
* the DOM construction performed by `ChatUI.render` (element creation
  plus `textContent` assignment) and the `innerHTML` write performed by
  the name-form handler in `app.js`;
* the controller's event handlers (message submit, name submit, room
  click) and the startup wiring, including the JavaScript truthiness
  test used to read `localStorage.username`.
-/

namespace VChat

/-- The record written to the `chats` collection by `Chatroom.addChat`
(field names as in `chat.js`; `created_at` is a timestamp, modelled as a
natural number). -/
structure Chat where
  message : String
  username : String
  room : String
  created_at : Nat
deriving Repr, DecidableEq

/-- One Firestore listener created by a `getChats` call: the `room`
equality filter it was opened with and whether it is still attached
(`active = false` once its unsubscribe function has run). -/
structure Subscription where
  filterRoom : String
  active : Bool
deriving Repr, DecidableEq

/-- The state of the client: the `Chatroom` instance's own fields
(`room`, `username`, `unsub`), the listeners created so far (`subs`,
with `unsub` an index into it, standing for the unsubscribe closure of
the most recently created listener), the rendered chat list (`view`,
the children of the `.chat-list` element) and the value of
`localStorage.username` (`storage`, `none` when the key is absent). -/
structure AppState where
  room : String
  username : String
  unsub : Option Nat
  subs : List Subscription
  view : List Chat
  storage : Option String
deriving Repr, DecidableEq

/-- `new Chatroom(room, username)`: sets `this.room` and
`this.username`; `this.unsub;` leaves the handle undefined. -/
def mkChatroom (room username : String) : AppState :=
  { room := room, username := username, unsub := none, subs := [], view := [],
    storage := none }

/-- `Chatroom.addChat(message)`: the document added to the `chats`
collection — `message`, `username := this.username`,
`room := this.room`, `created_at :=` the current time. -/
def addChat (st : AppState) (message : String) (now : Nat) : Chat :=
  { message := message, username := st.username, room := st.room,
    created_at := now }

/-- The Firestore query opened by `Chatroom.getChats`:
`this.chats.where('room', '==', this.room).orderBy('created_at')`
(`orderBy` with no direction argument is ascending). -/
structure Query where
  collection : String
  whereField : String
  whereOp : String
  whereValue : String
  orderByField : String
  ascending : Bool
deriving Repr, DecidableEq

/-- The query parameters `getChats` passes to the store. -/
def getChatsQuery (st : AppState) : Query :=
  { collection := "chats", whereField := "room", whereOp := "==",
    whereValue := st.room, orderByField := "created_at", ascending := true }

/-- `Chatroom.getChats(callback)`: opens a new listener on the query for
the current room and stores its unsubscribe function in `this.unsub`
(overwriting, not canceling, any previous value). -/
def getChats (st : AppState) : AppState :=
  { st with subs := st.subs ++ [{ filterRoom := st.room, active := true }],
            unsub := some st.subs.length }

/-- Running the unsubscribe closure held for listener `i`: that listener
detaches; every other listener is untouched. -/
def deactivate : List Subscription → Nat → List Subscription
  | [], _ => []
  | s :: rest, 0 => { filterRoom := s.filterRoom, active := false } :: rest
  | s :: rest, Nat.succ i => s :: deactivate rest i

/-- `Chatroom.updateName(username)`: `this.username = username;` and
nothing else — in particular no write to `localStorage`. -/
def updateName (st : AppState) (username : String) : AppState :=
  { st with username := username }

/-- `Chatroom.updateRoom(room)`: sets `this.room`, then
`if (this.unsub) { this.unsub(); }` — the handle is truthy exactly when
a listener has been created, and calling it detaches that listener.
The handle itself is not cleared. -/
def updateRoom (st : AppState) (room : String) : AppState :=
  let st := { st with room := room }
  match st.unsub with
  | some i => { st with subs := deactivate st.subs i }
  | none => st

/-- The `type` of a Firestore document change. -/
inductive ChangeType
  | added
  | modified
  | removed
deriving Repr, DecidableEq

/-- One entry of `snapshot.docChanges()`. -/
structure DocChange where
  type : ChangeType
  doc : Chat
deriving Repr, DecidableEq

/-- The snapshot handler installed by `getChats`:
`snapshot.docChanges().forEach(change => { if (change.type === 'added')
callback(change.doc.data()); })` — the list of arguments passed to the
callback, in delivery order. -/
def snapshotCalls : List DocChange → List Chat
  | [] => []
  | ch :: rest =>
    if ch.type = ChangeType.added then ch.doc :: snapshotCalls rest
    else snapshotCalls rest

/-- JavaScript truthiness of `localStorage.username`: the property is
`undefined` (falsy) when the key is absent, and a string is falsy
exactly when it is empty. -/
def jsTruthyStr : Option String → Bool
  | none => false
  | some s => !(s == "")

/-- `const username = localStorage.username ? localStorage.username :
'Anonymous';` in `app.js`. -/
def initUsername (stored : Option String) : String :=
  if jsTruthyStr stored then
    match stored with
    | some s => s
    | none => "Anonymous"
  else "Anonymous"

/-- The startup wiring of `app.js`: read `localStorage.username`,
construct `new Chatroom('general', username)` and call
`chatroom.getChats(...)` with the render callback. -/
def startup (stored : Option String) : AppState :=
  getChats { mkChatroom "general" (initUsername stored) with storage := stored }

/-- Number of listeners still attached. -/
def activeCount (subs : List Subscription) : Nat :=
  (subs.filter (fun s => s.active)).length

/-- JavaScript's `String.prototype.trim()`: strips leading and trailing
whitespace. -/
def jsTrim (s : String) : String :=
  ⟨((s.data.dropWhile Char.isWhitespace).reverse.dropWhile
      Char.isWhitespace).reverse⟩

/-- A raw operation of the `Chatroom` API, as callable by any client of
the class. -/
inductive SessOp
  | subscribe
  | changeRoom (r : String)
  | rename (n : String)
deriving Repr, DecidableEq

/-- One `Chatroom` API call. -/
def sessStep (st : AppState) : SessOp → AppState
  | SessOp.subscribe => getChats st
  | SessOp.changeRoom r => updateRoom st r
  | SessOp.rename n => updateName st n

/-- A sequence of `Chatroom` API calls. -/
def sessRun (st : AppState) (ops : List SessOp) : AppState :=
  ops.foldl sessStep st

/-- The store delivers an `added` event for chat `c`: every listener
that is still attached and whose query filter matches `c.room` fires its
snapshot handler, and the render callback appends the chat to the list. -/
def deliverChat (st : AppState) (c : Chat) : AppState :=
  { st with view := st.view ++
      ((st.subs.filter (fun s => s.active && s.filterRoom == c.room)).map
        (fun _ => c)) }

/-- A write to a DOM element's content: either a `textContent`
assignment or an `innerHTML` assignment. -/
inductive DomWrite
  | setTextContent (s : String)
  | setInnerHTML (s : String)
deriving Repr, DecidableEq

/-- True when the string contains a markup metacharacter. -/
def hasMarkupMeta (s : String) : Bool :=
  s.data.any (fun c => c == '<' || c == '>' || c == '&')

/-- DOM sink semantics: an `innerHTML` assignment parses its string, so
markup metacharacters in it are interpreted as markup; a `textContent`
assignment never parses. -/
def interpretsAsMarkup : DomWrite → Bool
  | DomWrite.setInnerHTML s => hasMarkupMeta s
  | DomWrite.setTextContent _ => false

/-- What the name-form submit handler in `app.js` does besides the
state change: reset the form and write the confirmation message. -/
structure NameSubmitResult where
  state : AppState
  formReset : Bool
  confirm : DomWrite
  confirmClearDelayMs : Nat
deriving Repr

/-- The `newNameForm` submit handler: trim the input, call
`chatroom.updateName(newName)`, reset the form, and set
`updateMsg.innerHTML` to a template literal interpolating the raw
trimmed name; the confirmation is cleared after 3000 ms. No write to
`localStorage` happens anywhere on this path. -/
def newNameSubmit (st : AppState) (inputValue : String) : NameSubmitResult :=
  let newName := jsTrim inputValue
  { state := updateName st newName
    formReset := true
    confirm := DomWrite.setInnerHTML ("Name has been updated to " ++ newName)
    confirmClearDelayMs := 3000 }

/-- Outcome of the asynchronous Firestore write issued by `addChat`. -/
inductive WriteOutcome
  | ok
  | err (e : String)
deriving Repr, DecidableEq

/-- Observable result of one `newChatForm` submit: the record passed to
the store (if any write was issued at all), the input field's value
after the handlers ran, and what was logged to the console. -/
structure ChatSubmitResult where
  submitted : Option Chat
  inputAfter : String
  loggedError : Option String
deriving Repr, DecidableEq

/-- The `newChatForm` submit handler: trim the input value, call
`chatroom.addChat(message)` unconditionally (there is no emptiness
check), then on fulfilment `newChatForm.reset()` clears the input and on
rejection the error is logged and the input is left untouched. -/
def newChatSubmit (st : AppState) (inputValue : String) (now : Nat)
    (outcome : WriteOutcome) : ChatSubmitResult :=
  let message := jsTrim inputValue
  match outcome with
  | WriteOutcome.ok =>
    { submitted := some (addChat st message now), inputAfter := "",
      loggedError := none }
  | WriteOutcome.err e =>
    { submitted := some (addChat st message now), inputAfter := inputValue,
      loggedError := some e }

/-- An event the controller-level system reacts to: a room-button
click, a name-form submit, or the store delivering an `added` record. -/
inductive CtrlEvent
  | clickRoom (r : String)
  | submitName (raw : String)
  | deliver (c : Chat)
deriving Repr, DecidableEq

/-- Controller semantics. A room-button click runs `chatUI.clear()`
(the list's `innerHTML` is emptied), then `chatroom.updateRoom(id)`,
then `chatroom.getChats(chat => chatUI.render(chat))`, in that order. -/
def ctrlStep (st : AppState) : CtrlEvent → AppState
  | CtrlEvent.clickRoom r => getChats (updateRoom { st with view := [] } r)
  | CtrlEvent.submitName raw => (newNameSubmit st raw).state
  | CtrlEvent.deliver c => deliverChat st c

/-- A sequence of controller-level events after startup. -/
def ctrlRun (st : AppState) (evs : List CtrlEvent) : AppState :=
  evs.foldl ctrlStep st

/-- A DOM node: an element with a tag, a class attribute and children,
or a text node. A `textContent` assignment produces exactly one text
child; only explicit `createElement` calls produce elements. -/
inductive Node
  | elem (tag : String) (className : String) (children : List Node)
  | text (s : String)
deriving Repr

mutual

/-- The `textContent` read of a node: concatenation of its text leaves,
in document order. -/
def textualContent : Node → String
  | Node.text s => s
  | Node.elem _ _ cs => textualContentList cs

/-- `textualContent` over a child list. -/
def textualContentList : List Node → String
  | [] => ""
  | [n] => textualContent n
  | n :: rest => textualContent n ++ textualContentList rest

end

mutual

/-- The tags of all elements in a node tree, in document order. -/
def elementTags : Node → List String
  | Node.text _ => []
  | Node.elem tag _ cs => tag :: elementTagsList cs

/-- `elementTags` over a child list. -/
def elementTagsList : List Node → List String
  | [] => []
  | n :: rest => elementTags n ++ elementTagsList rest

end

/-- `ChatUI.render(data)`: formats the timestamp with
`dateFns.distanceInWordsToNow` (modelled by the external formatter
`fmt`), then builds the list entry with `document.createElement` and
sets the username, message and time spans via `textContent`; the entry
is appended to the list. -/
def render (fmt : Nat → String) (data : Chat) : Node :=
  Node.elem "li" "list-group-item chat"
    [ Node.elem "span" "username btn" [Node.text data.username],
      Node.elem "span" "message" [Node.text data.message],
      Node.elem "span" "time" [Node.text (fmt data.created_at)] ]

/-! ## Subscription-lifecycle invariant

The controller maintains: every attached listener filters on the
current room, every rendered chat belongs to the current room, the
stored unsubscribe handle points at a listener whose cancellation would
leave no listener attached, and at most one listener is attached. -/

/-- The controller invariant over the client state. -/
def Inv (st : AppState) : Prop :=
  (∀ s, s ∈ st.subs → s.active = true → s.filterRoom = st.room) ∧
  (∀ c, c ∈ st.view → c.room = st.room) ∧
  (∃ i, st.unsub = some i ∧
    ∀ s, s ∈ deactivate st.subs i → s.active = false) ∧
  activeCount st.subs ≤ 1

theorem mem_of_mem_deactivate_active (l : List Subscription) :
    ∀ (i : Nat) (s : Subscription),
      s ∈ deactivate l i → s.active = true → s ∈ l := by
  induction l with
  | nil => intro i s h _; simp [deactivate] at h
  | cons a rest ih =>
    intro i s h ha
    cases i with
    | zero =>
      simp only [deactivate, List.mem_cons] at h
      rcases h with h | h
      · subst h; simp at ha
      · exact List.mem_cons_of_mem _ h
    | succ j =>
      simp only [deactivate, List.mem_cons] at h
      rcases h with h | h
      · subst h; exact List.mem_cons_self _ _
      · exact List.mem_cons_of_mem _ (ih j s h ha)

theorem deactivate_append_singleton (l : List Subscription)
    (x : Subscription) :
    deactivate (l ++ [x]) l.length =
      l ++ [{ filterRoom := x.filterRoom, active := false }] := by
  induction l with
  | nil => rfl
  | cons a rest ih => simp [deactivate, ih]

theorem activeCount_eq_zero_of_all (l : List Subscription)
    (h : ∀ s ∈ l, s.active = false) : activeCount l = 0 := by
  induction l with
  | nil => rfl
  | cons a rest ih =>
    have ha := h a (List.mem_cons_self a rest)
    have hr := ih (fun s hs => h s (List.mem_cons_of_mem _ hs))
    simp only [activeCount, List.filter_cons, ha] at hr ⊢
    simpa using hr

theorem activeCount_append (l l' : List Subscription) :
    activeCount (l ++ l') = activeCount l + activeCount l' := by
  simp [activeCount, List.filter_append]

/-- After a state in which every listener is detached and the view is
empty, `getChats` restores the invariant: the one fresh listener filters
on the current room. -/
theorem inv_getChats_of_all_inactive {st : AppState}
    (hall : ∀ s ∈ st.subs, s.active = false)
    (hview : st.view = []) : Inv (getChats st) := by
  refine ⟨?_, ?_, ?_, ?_⟩
  · intro s hs hsa
    simp only [getChats, List.mem_append, List.mem_singleton] at hs
    rcases hs with hs | hs
    · rw [hall s hs] at hsa; cases hsa
    · subst hs; rfl
  · intro c hc
    simp only [getChats] at hc
    rw [hview] at hc
    cases hc
  · refine ⟨st.subs.length, rfl, ?_⟩
    intro s hs
    simp only [getChats] at hs
    rw [deactivate_append_singleton] at hs
    rcases List.mem_append.mp hs with hs | hs
    · exact hall s hs
    · simp only [List.mem_singleton] at hs
      subst hs; rfl
  · simp only [getChats, activeCount_append,
      activeCount_eq_zero_of_all st.subs hall]
    simp [activeCount]

/-- A single controller event preserves the invariant. -/
theorem inv_ctrlStep {st : AppState} (ev : CtrlEvent) (h : Inv st) :
    Inv (ctrlStep st ev) := by
  obtain ⟨ha, hv, ⟨i, hi, hkill⟩, hn⟩ := h
  cases ev with
  | clickRoom r =>
    show Inv (getChats (updateRoom { st with view := [] } r))
    have hmid : updateRoom { st with view := [] } r =
        { st with view := [], room := r, subs := deactivate st.subs i } := by
      simp [updateRoom, hi]
    rw [hmid]
    exact inv_getChats_of_all_inactive (fun s hs => hkill s hs) rfl
  | submitName raw =>
    refine ⟨?_, ?_, ⟨i, hi, hkill⟩, hn⟩
    · exact ha
    · exact hv
  | deliver c =>
    refine ⟨ha, ?_, ⟨i, hi, hkill⟩, hn⟩
    intro c' hc'
    simp only [ctrlStep, deliverChat, List.mem_append] at hc'
    rcases hc' with hc' | hc'
    · exact hv c' hc'
    · simp only [List.mem_map, List.mem_filter] at hc'
      obtain ⟨s, ⟨hsmem, hsel⟩, rfl⟩ := hc'
      simp only [Bool.and_eq_true, beq_iff_eq] at hsel
      exact (hsel.2).symm.trans (ha s hsmem hsel.1)

/-- The startup state satisfies the invariant. -/
theorem inv_startup (stored : Option String) : Inv (startup stored) := by
  refine ⟨?_, ?_, ⟨0, rfl, ?_⟩, ?_⟩
  · intro s hs hsa
    simp only [startup, getChats, mkChatroom, List.nil_append,
      List.mem_singleton] at hs
    subst hs; rfl
  · intro c hc
    simp [startup, getChats, mkChatroom] at hc
  · intro s hs
    simp only [startup, getChats, mkChatroom, List.nil_append,
      deactivate, List.mem_singleton] at hs
    subst hs; rfl
  · simp [startup, getChats, mkChatroom, activeCount]

/-- The invariant holds in every controller-reachable state. -/
theorem inv_ctrlRun (evs : List CtrlEvent) :
    ∀ st : AppState, Inv st → Inv (ctrlRun st evs) := by
  induction evs with
  | nil => intro st h; exact h
  | cons e rest ih =>
    intro st h
    simp only [ctrlRun, List.foldl_cons] at *
    exact ih (ctrlStep st e) (inv_ctrlStep e h)

/-! ## Claims -/

/-- C1: for every message record whose body or author string contains
markup metacharacters, `ChatUI.render` produces a list-entry node whose
author and body sub-regions are single text nodes (set via
`textContent`), so the rendered textual content of each sub-region
equals the input string verbatim, and the element structure of the
rendered entry is the fixed `li`/`span`/`span`/`span` shape — no markup
element is derived from the input strings. -/
theorem render_textContent_verbatim (fmt : Nat → String) (data : Chat)
    (h : hasMarkupMeta data.message = true ∨
      hasMarkupMeta data.username = true) :
    render fmt data = Node.elem "li" "list-group-item chat"
      [ Node.elem "span" "username btn" [Node.text data.username],
        Node.elem "span" "message" [Node.text data.message],
        Node.elem "span" "time" [Node.text (fmt data.created_at)] ] ∧
    textualContent
      (Node.elem "span" "username btn" [Node.text data.username]) =
        data.username ∧
    textualContent
      (Node.elem "span" "message" [Node.text data.message]) =
        data.message ∧
    elementTags (render fmt data) = ["li", "span", "span", "span"] := by
  refine ⟨rfl, ?_, ?_, rfl⟩
  · simp [textualContent, textualContentList]
  · simp [textualContent, textualContentList]

/-- C1 witness: a message body that is a script-injection payload
renders as a text node holding the payload verbatim. -/
theorem render_textContent_verbatim_witness :
    (hasMarkupMeta "<img src=x onerror=alert(1)>" = true ∨
      hasMarkupMeta "eve" = true) ∧
    (render (fun _ => "just now")
        ⟨"<img src=x onerror=alert(1)>", "eve", "general", 0⟩ =
      Node.elem "li" "list-group-item chat"
        [ Node.elem "span" "username btn" [Node.text "eve"],
          Node.elem "span" "message"
            [Node.text "<img src=x onerror=alert(1)>"],
          Node.elem "span" "time" [Node.text "just now"] ] ∧
      textualContent (Node.elem "span" "username btn" [Node.text "eve"]) =
        "eve" ∧
      textualContent (Node.elem "span" "message"
          [Node.text "<img src=x onerror=alert(1)>"]) =
        "<img src=x onerror=alert(1)>" ∧
      elementTags (render (fun _ => "just now")
          ⟨"<img src=x onerror=alert(1)>", "eve", "general", 0⟩) =
        ["li", "span", "span", "span"]) :=
  ⟨Or.inl (by decide),
    render_textContent_verbatim (fun _ => "just now")
      ⟨"<img src=x onerror=alert(1)>", "eve", "general", 0⟩
      (Or.inl (by decide))⟩

/-- C2 counterexample: submitting a whitespace-only message is not
rejected — the handler trims it to the empty string and still issues a
write of an empty-message record to the store. -/
theorem whitespace_submit_writes_counterexample :
    (newChatSubmit (startup none) "   " 0 WriteOutcome.ok).submitted =
      some { message := "", username := "Anonymous", room := "general",
             created_at := 0 } ∧
    (newChatSubmit (startup none) "   " 0 WriteOutcome.ok).submitted ≠
      none := by
  refine ⟨by decide, by decide⟩

/-- C2 amended: the submit path trims the input but performs no
emptiness check — for every input value, including empty or
whitespace-only ones, `addChat` is called and a write whose message is
the trimmed input is issued to the store. -/
theorem submit_always_writes_trimmed (st : AppState) (input : String)
    (now : Nat) (o : WriteOutcome) :
    (newChatSubmit st input now o).submitted =
      some (addChat st (jsTrim input) now) := by
  cases o <;> rfl

/-- C3: evaluation of the code at the failing input — after changing
the username to "alice" and then "bob", the in-memory username is "bob"
but `localStorage` still holds nothing: `updateName` (and the whole
name-submit path) never writes durable storage, contradicting the
repository's own `docs/SPEC.md` ("Persists the new username to
`localStorage`"); it also performs no non-emptiness validation. -/
theorem updateName_no_persistence :
    (ctrlRun (startup none)
        [CtrlEvent.submitName "alice", CtrlEvent.submitName "bob"]).username
      = "bob" ∧
    (ctrlRun (startup none)
        [CtrlEvent.submitName "alice", CtrlEvent.submitName "bob"]).storage
      = none ∧
    (ctrlRun (startup none)
        [CtrlEvent.submitName "alice", CtrlEvent.submitName "bob"]).storage
      ≠ some "bob" ∧
    (newNameSubmit (startup none) "").state.username = "" := by
  refine ⟨by decide, by decide, by decide, by decide⟩

/-- C4 counterexample: the `Chatroom` operations alone do not preserve
the invariant — calling `getChats` twice in a row from a fresh instance
leaves two listeners attached, the first never canceled. -/
theorem double_subscribe_two_active :
    activeCount ((sessRun (mkChatroom "general" "Anonymous")
      [SessOp.subscribe, SessOp.subscribe]).subs) = 2 ∧
    ¬ activeCount ((sessRun (mkChatroom "general" "Anonymous")
      [SessOp.subscribe, SessOp.subscribe]).subs) ≤ 1 := by
  refine ⟨by decide, by decide⟩

/-- C4 amended: `getChats` itself cancels nothing (cancellation lives
in `updateRoom`), so the at-most-one-active-subscription invariant holds
not for arbitrary sequences of the Room Session's operations but for the
controller's event sequences, in which every resubscription happens
inside the room-click path that runs `updateRoom` (canceling the live
listener) before `getChats`. -/
theorem controller_at_most_one_active (stored : Option String)
    (evs : List CtrlEvent) :
    activeCount (ctrlRun (startup stored) evs).subs ≤ 1 :=
  (inv_ctrlRun evs (startup stored) (inv_startup stored)).2.2.2

/-- C5: in every controller-reachable state, every chat in the rendered
list belongs to the currently viewed room — after switching from room A
to room B via the room-button path, a message posted to room A is never
rendered while viewing room B, and vice versa. -/
theorem view_matches_current_room (stored : Option String)
    (evs : List CtrlEvent) (c : Chat)
    (h : c ∈ (ctrlRun (startup stored) evs).view) :
    c.room = (ctrlRun (startup stored) evs).room :=
  (inv_ctrlRun evs (startup stored) (inv_startup stored)).2.1 c h

/-- C5 witness: a chat delivered for the initial room "general" is in
the rendered list, and its room is the currently viewed room. -/
theorem view_matches_current_room_witness :
    (⟨"hi", "bob", "general", 1⟩ : Chat) ∈
      (ctrlRun (startup none)
        [CtrlEvent.deliver ⟨"hi", "bob", "general", 1⟩]).view ∧
    (⟨"hi", "bob", "general", 1⟩ : Chat).room =
      (ctrlRun (startup none)
        [CtrlEvent.deliver ⟨"hi", "bob", "general", 1⟩]).room :=
  ⟨by decide,
    view_matches_current_room none
      [CtrlEvent.deliver ⟨"hi", "bob", "general", 1⟩]
      ⟨"hi", "bob", "general", 1⟩ (by decide)⟩

/-- C6: `addChat` constructs the written record from the session's
current username and room, the given message and the time of the call;
with no stored username and room "general", posting "hello" writes
`{message := "hello", username := "Anonymous", room := "general"}`; a
message posted after two username changes carries the latest name, and
one posted after a room switch carries the new room. -/
theorem addChat_record_fields :
    (∀ (st : AppState) (msg : String) (now : Nat),
      addChat st msg now =
        { message := msg, username := st.username, room := st.room,
          created_at := now }) ∧
    addChat (startup none) "hello" 7 =
      { message := "hello", username := "Anonymous", room := "general",
        created_at := 7 } ∧
    (addChat (ctrlRun (startup none)
        [CtrlEvent.submitName "alice", CtrlEvent.submitName "bob"])
      "hi" 9).username = "bob" ∧
    (addChat (ctrlRun (startup none) [CtrlEvent.clickRoom "gaming"])
      "hi" 9).room = "gaming" := by
  refine ⟨fun st msg now => rfl, by decide, by decide, by decide⟩

/-- C7: `getChats` opens the query `where('room', '==', this.room)`
ordered by `created_at` ascending, registers a listener filtering on the
current room, and its snapshot handler invokes the callback exactly once
for each `added` document change, in delivery order. -/
theorem getChats_query_and_added_callbacks :
    (∀ st : AppState, getChatsQuery st =
      { collection := "chats", whereField := "room", whereOp := "==",
        whereValue := st.room, orderByField := "created_at",
        ascending := true }) ∧
    (∀ st : AppState, (getChats st).subs =
      st.subs ++ [{ filterRoom := st.room, active := true }]) ∧
    (∀ changes : List DocChange, snapshotCalls changes =
      (changes.filter (fun ch => ch.type == ChangeType.added)).map
        (fun ch => ch.doc)) := by
  refine ⟨fun st => rfl, fun st => rfl, ?_⟩
  intro changes
  induction changes with
  | nil => rfl
  | cons ch rest ih =>
    by_cases h : ch.type = ChangeType.added
    · simp [snapshotCalls, List.filter_cons, h, ih]
    · simp [snapshotCalls, List.filter_cons, h, ih]

/-- C8: on a message submit, a fulfilled write resets the input field
and logs nothing, and a rejected write logs the error and leaves the
input field unchanged, preserving the user's draft. -/
theorem chat_submit_reset_or_preserve (st : AppState) (input : String)
    (now : Nat) (e : String) :
    (newChatSubmit st input now WriteOutcome.ok).inputAfter = "" ∧
    (newChatSubmit st input now WriteOutcome.ok).loggedError = none ∧
    (newChatSubmit st input now (WriteOutcome.err e)).inputAfter = input ∧
    (newChatSubmit st input now (WriteOutcome.err e)).loggedError = some e :=
  ⟨rfl, rfl, rfl, rfl⟩

/-- C9: there is a submitted username containing markup metacharacters
for which the name-form handler sets the confirmation region via an
`innerHTML` assignment interpolating the raw trimmed name — never via a
`textContent` assignment — so the name is interpreted as markup there. -/
theorem name_confirm_innerHTML_markup :
    ∃ s : String, hasMarkupMeta s = true ∧
      ∀ st : AppState,
        (newNameSubmit st s).confirm =
          DomWrite.setInnerHTML ("Name has been updated to " ++ jsTrim s) ∧
        interpretsAsMarkup (newNameSubmit st s).confirm = true ∧
        ∀ t : String,
          (newNameSubmit st s).confirm ≠ DomWrite.setTextContent t := by
  refine ⟨"<b>hi</b>", by decide, ?_⟩
  intro st
  have hc : (newNameSubmit st "<b>hi</b>").confirm =
      DomWrite.setInnerHTML
        ("Name has been updated to " ++ jsTrim "<b>hi</b>") := rfl
  refine ⟨hc, ?_, ?_⟩
  · rw [hc]; decide
  · intro t h
    rw [hc] at h
    exact DomWrite.noConfusion h

/-- C10: the startup read of `localStorage.username` goes through a
JavaScript truthiness test, so an empty stored string — like any falsy
stored value — initializes the session's username to "Anonymous" rather
than to the stored value. -/
theorem initUsername_falsy_default :
    initUsername (some "") = "Anonymous" ∧
    ∀ v : Option String,
      jsTruthyStr v = false → initUsername v = "Anonymous" := by
  refine ⟨by decide, ?_⟩
  intro v hv
  simp [initUsername, hv]

/-- C10 witness: the empty stored string is falsy, and startup then
defaults the username to "Anonymous". -/
theorem initUsername_falsy_default_witness :
    jsTruthyStr (some "") = false ∧
    initUsername (some "") = "Anonymous" :=
  ⟨by decide, initUsername_falsy_default.2 (some "") (by decide)⟩

end VChat
